import Mathlib

/-!
# Verification of the GLIF single-neuron simulator (`allen_wrench/model/GLIF/neuron.py`)

This file gives a shallow embedding of the GLIF neuron simulator and proves
properties of the embedded definitions.

Numeric model.  The Python source computes with IEEE-754 doubles (plain floats
and numpy float64 scalars).  We model a double as an element of `FV`: either an
exact rational (`FV.fin q`, the finite doubles), positive or negative infinity,
or the not-a-number value.  Arithmetic on `FV` follows the IEEE special-value
rules (nan propagates; `inf - inf = nan`; `x * 0` with `x` infinite is nan;
division of a nonzero finite value by zero gives a signed infinity, `0/0` is
nan); comparisons involving nan are false.  We do not model signed zero or
rounding: within the finite fragment arithmetic is exact, which is the standard
idealisation for verifying the control flow and algebraic structure of the
simulator.

Array model.  A numpy 1-D array is a `List FV`; a 2-D array (steps x
after-spike-currents) is a `List (List FV)` of rows.  The source pre-fills its
output arrays with `np.nan` and overwrites entries as it runs; the nan sentinel
is the honest `FV.nan` value, so "unfilled" and "blanked" entries are both
literally nan, exactly as in the source.  Loops of the source that write every
index `0, 1, ..., k-1` of a pre-allocated array in order are embedded as lists
built by appending, which yields the same final array contents.
`numpy` slice assignment `a[i:i+n] = nan` clamps at the array length; the
embedding uses `List.set`, which is a no-op out of range, giving the same
clamping behaviour.

The pluggable dynamics and reset methods (the method library lives in
`neuron_methods.py`, outside the sources provided) are fields of the embedded
neuron: arbitrary functions with the call signatures used by `neuron.py`.
All theorems about the run loops therefore hold for every choice of methods.
-/

/-- Model of an IEEE double: an exact rational, an infinity, or nan. -/
inductive FV : Type where
  | fin (q : ℚ)
  | pinf
  | ninf
  | nan
  deriving DecidableEq, Repr

namespace FV

/-- `math.isnan` / `np.isnan` on a scalar. -/
def isNan : FV → Bool
  | nan => true
  | _ => false

/-- `math.isinf` / `np.isinf` on a scalar. -/
def isInf : FV → Bool
  | pinf => true
  | ninf => true
  | _ => false

/-- The guard condition `np.isnan(x) or np.isinf(x)` used by the source:
true exactly on the non-finite values. -/
def isBad (x : FV) : Bool := x.isNan || x.isInf

/-- IEEE negation. -/
def neg : FV → FV
  | fin q => fin (-q)
  | pinf => ninf
  | ninf => pinf
  | nan => nan

/-- IEEE addition (nan propagates, `inf + (-inf) = nan`). -/
def add : FV → FV → FV
  | fin a, fin b => fin (a + b)
  | fin _, pinf => pinf
  | fin _, ninf => ninf
  | pinf, fin _ => pinf
  | ninf, fin _ => ninf
  | pinf, pinf => pinf
  | ninf, ninf => ninf
  | pinf, ninf => nan
  | ninf, pinf => nan
  | nan, _ => nan
  | _, nan => nan

/-- IEEE subtraction, `a - b = a + (-b)`. -/
def sub (a b : FV) : FV := add a (neg b)

/-- IEEE multiplication (`inf * 0 = nan`, sign rules for infinities). -/
def mul : FV → FV → FV
  | fin a, fin b => fin (a * b)
  | fin a, pinf => if a = 0 then nan else if 0 < a then pinf else ninf
  | fin a, ninf => if a = 0 then nan else if 0 < a then ninf else pinf
  | pinf, fin b => if b = 0 then nan else if 0 < b then pinf else ninf
  | ninf, fin b => if b = 0 then nan else if 0 < b then ninf else pinf
  | pinf, pinf => pinf
  | ninf, ninf => pinf
  | pinf, ninf => ninf
  | ninf, pinf => ninf
  | nan, _ => nan
  | _, nan => nan

/-- IEEE division on numpy float64 scalars: a nonzero finite value divided by
zero is a signed infinity (positive-zero convention, signed zero not
modelled), `0/0` is nan, `inf/inf` is nan, finite over infinite is zero. -/
def div : FV → FV → FV
  | fin a, fin b =>
      if b = 0 then (if a = 0 then nan else if 0 < a then pinf else ninf)
      else fin (a / b)
  | fin _, pinf => fin 0
  | fin _, ninf => fin 0
  | pinf, fin b => if 0 ≤ b then pinf else ninf
  | ninf, fin b => if 0 ≤ b then ninf else pinf
  | pinf, pinf => nan
  | pinf, ninf => nan
  | ninf, pinf => nan
  | ninf, ninf => nan
  | nan, _ => nan
  | _, nan => nan

/-- Python `<` on doubles: any comparison involving nan is false. -/
def lt : FV → FV → Bool
  | fin a, fin b => decide (a < b)
  | fin _, pinf => true
  | fin _, ninf => false
  | pinf, _ => false
  | ninf, fin _ => true
  | ninf, pinf => true
  | ninf, ninf => false
  | nan, _ => false
  | _, nan => false

/-- `np.ceil` on a double. -/
def ceil : FV → FV
  | fin q => fin (⌈q⌉ : ℤ)
  | pinf => pinf
  | ninf => ninf
  | nan => nan

instance : Add FV := ⟨add⟩
instance : Sub FV := ⟨sub⟩
instance : Mul FV := ⟨mul⟩
instance : Div FV := ⟨div⟩
instance : Neg FV := ⟨neg⟩

/-- Embedding of a Python int / a non-negative grid index into `FV`. -/
def ofNat (n : ℕ) : FV := fin n

end FV

/-!
## Neuron configuration and data model (`GLIFNeuron.__init__`, lines 18-60)
-/

/-- The coefficient map built at construction (source lines 39-48): defaulted
entries `th_inf, C, G, b, a, asc_vector`, with caller-supplied overrides
applied by `dict.update`. -/
structure Coeffs where
  th_inf : FV
  C : FV
  G : FV
  b : FV
  a : FV
  asc_vector : List FV
  deriving Repr

/-- Caller-supplied coefficient overrides: each entry is optional; a present
entry replaces the default (`self.coeffs.update(coeffs)`). -/
structure CoeffOverrides where
  th_inf : Option FV := none
  C : Option FV := none
  G : Option FV := none
  b : Option FV := none
  a : Option FV := none
  asc_vector : Option (List FV) := none

/-- The numeric, method-free part of the constructed neuron: the physical
parameters stored by `__init__` plus the derived constants `k = 1/tau`
and `G = 1/R_input` and the merged coefficient map. -/
structure NeuronConfig where
  El : FV
  dt : FV
  tau : List FV
  R_input : FV
  C : FV
  asc_vector : List FV
  spike_cut_length : ℕ
  th_inf : FV
  k : List FV
  G : FV
  coeffs : Coeffs

/-- Modelled from the spec: `GLIFNeuronMethod` (defined in `neuron_methods.py`,
which is not among the provided sources) is a bound method: a stable name, a
strategy function, and its validated parameter set (spec section 4.1).  The
strategy function type `μ` and the parameter-set type are abstract here. -/
structure GLIFNeuronMethod (μ : Type) (π : Type) where
  name : String
  method : μ
  params : π

/-- Raw method configuration passed to the constructor: a dictionary that may
or may not contain the `name` and `params` fields (`params.get('name', None)`,
`params.get('params', None)`, source lines 92-93). -/
structure MethodConfig (π : Type) where
  name : Option String
  params : Option π

/-- Error taxonomy.  The source raises `AssertionError`/`Exception`; the spec
names the kinds.  Construction-time failures are the configuration errors;
`resetAboveThreshold` is the reset-invariant violation (source line 145) and
carries exactly what the source formats into its message: the step index and
the post-reset voltage and threshold; `invalidValue` is the mid-integration
non-finite guard (source line 516), whose raised exception carries only the
fixed message `'Invalid threshold, voltage, or after-spike current
encountered.'` and no step index; `incompleteTrace i` are the three
trace-fill checks (source lines 413-424, `i` numbering which trace);
`spikeCountMismatch` is the per-spike-array length check (line 432);
`targetFlagAssert` are the asserts at lines 305 and 337; `indexError`,
`nameError` and `valueError` model the corresponding Python runtime errors
on degenerate segments. -/
inductive Err : Type where
  | tauLengthMismatch
  | unknownMethodType
  | missingMethodName
  | missingMethodParams
  | unknownMethodName
  | resetAboveThreshold (t : ℕ) (voltage threshold : FV)
  | invalidValue
  | incompleteTrace (trace : ℕ)
  | spikeCountMismatch
  | targetFlagAssert
  | indexError
  | nameError
  | valueError
  | overflowError
  deriving DecidableEq, Repr

/-- `configure_library_method` (source lines 87-102): look the method type up
in the library, require the `name` and `params` fields, look the name up under
the type; each missing piece is a distinct configuration failure. -/
def configureLibraryMethod {μ π : Type} (method_options : Option (String → Option μ))
    (params : MethodConfig π) : Except Err (GLIFNeuronMethod μ π) :=
  match method_options with
  | none => .error .unknownMethodType
  | some options =>
    match params.name with
    | none => .error .missingMethodName
    | some method_name =>
      match params.params with
      | none => .error .missingMethodParams
      | some method_params =>
        match options method_name with
        | none => .error .unknownMethodName
        | some method => .ok ⟨method_name, method, method_params⟩

/-- Call signature of each of the six strategy roles, as invoked by
`neuron.py` (the bound method receives the neuron itself as first argument;
here it receives the numeric configuration). -/
def AScurrentDynT : Type := NeuronConfig → List FV → ℕ → List ℕ → List FV

/-- Voltage dynamics signature: prior voltage, prior after-spike currents,
injected current. -/
def VoltageDynT : Type := NeuronConfig → FV → List FV → FV → FV

/-- Threshold dynamics signature: prior threshold, prior voltage. -/
def ThresholdDynT : Type := NeuronConfig → FV → FV → FV

/-- After-spike-current reset signature: pre-reset currents, step index. -/
def AScurrentResetT : Type := NeuronConfig → List FV → ℕ → List FV

/-- Voltage reset signature: pre-reset voltage. -/
def VoltageResetT : Type := NeuronConfig → FV → FV

/-- Threshold reset signature: pre-reset threshold, post-reset voltage. -/
def ThresholdResetT : Type := NeuronConfig → FV → FV → FV

/-- The constructed neuron: numeric configuration plus the six resolved
strategy functions (the `method` component of each bound method). -/
structure GLIFNeuron where
  cfg : NeuronConfig
  AScurrent_dynamics_method : AScurrentDynT
  voltage_dynamics_method : VoltageDynT
  threshold_dynamics_method : ThresholdDynT
  AScurrent_reset_method : AScurrentResetT
  voltage_reset_method : VoltageResetT
  threshold_reset_method : ThresholdResetT

namespace GLIFNeuron

/-- `GLIFNeuron.dynamics` (source lines 104-121): evaluate the three dynamics
methods against the same time-`t0` state. -/
def dynamics (n : GLIFNeuron) (voltage_t0 threshold_t0 : FV) (AScurrents_t0 : List FV)
    (inj : FV) (time_step : ℕ) (spike_time_steps : List ℕ) : FV × FV × List FV :=
  let AScurrents_t1 := n.AScurrent_dynamics_method n.cfg AScurrents_t0 time_step spike_time_steps
  let voltage_t1 := n.voltage_dynamics_method n.cfg voltage_t0 AScurrents_t0 inj
  let threshold_t1 := n.threshold_dynamics_method n.cfg threshold_t0 voltage_t0
  (voltage_t1, threshold_t1, AScurrents_t1)

/-- `GLIFNeuron.reset` (source lines 127-147): after-spike-current reset, then
voltage reset, then threshold reset (which sees the just-reset voltage); the
post-reset state must satisfy `voltage_t1 < threshold_t1`, else the reset
fails with the invariant violation carrying the step index and both values. -/
def reset (n : GLIFNeuron) (voltage_t0 threshold_t0 : FV) (AScurrents_t0 : List FV)
    (t : ℕ) : Except Err (FV × FV × List FV) :=
  let AScurrents_t1 := n.AScurrent_reset_method n.cfg AScurrents_t0 t
  let voltage_t1 := n.voltage_reset_method n.cfg voltage_t0
  let threshold_t1 := n.threshold_reset_method n.cfg threshold_t0 voltage_t1
  if FV.lt voltage_t1 threshold_t1 then
    .ok (voltage_t1, threshold_t1, AScurrents_t1)
  else
    .error (.resetAboveThreshold t voltage_t1 threshold_t1)

end GLIFNeuron

/-!
## Interpolated spike times (source lines 215-217 and 528/534)
-/

/-- The free-run loop's interpolated spike time (source line 215, with the
source's own note that the `-1` was removed on 4-22):
`dt*(time_step + (threshold_t0-voltage_t0)/(voltage_t1-threshold_t1-voltage_t0+threshold_t0))`. -/
def interpolatedSpikeTimeRun (dt : FV) (time_step : ℕ) (v0 th0 v1 th1 : FV) : FV :=
  dt * (FV.fin time_step + (th0 - v0) / (v1 - th1 - v0 + th0))

/-- The linear interpolation of a state value at the interpolated spike time
`T` (source lines 216-217): `x0 + (x1-x0)*(T-(time_step-1)*dt)/dt`. -/
def interpolatedValueRun (dt : FV) (time_step : ℕ) (x0 x1 T : FV) : FV :=
  x0 + (x1 - x0) * (T - FV.fin ((time_step : ℚ) - 1) * dt) / dt

/-- `run_until_spike`'s interpolated spike time at a crossing found at recorded
index `time_step` (source line 528; also the boundary form of line 534 with
`time_step = num_time_steps` and the final state as the current pair):
`dt*((time_step-1) + (th_prev-v_prev)/(v_cur-th_cur-v_prev+th_prev))`. -/
def interpolatedSpikeTimeRUS (dt : FV) (time_step : ℕ) (vprev thprev vcur thcur : FV) : FV :=
  dt * (FV.fin ((time_step : ℚ) - 1) + (thprev - vprev) / (vcur - thcur - vprev + thprev))

/-!
## Free-run loop (`GLIFNeuron.run`, source lines 154-249)
-/

/-- Set `n` consecutive entries of a list to `a`, starting at index `i`
(`numpy` slice assignment `l[i:i+n] = a`; out-of-range indices are silently
clamped, as numpy clamps the slice). -/
def setRange {α : Type} (l : List α) (i n : ℕ) (a : α) : List α :=
  match n with
  | 0 => l
  | m + 1 => setRange (l.set i a) (i + 1) m a

/-- Output of the free-run loop: the three per-step traces (pre-filled with
nan and overwritten as the loop progresses) and the five per-spike
sequences. -/
structure RunResult where
  voltage_out : List FV
  threshold_out : List FV
  AScurrents_out : List (List FV)
  spike_times : List FV
  interpolated_spike_times : List FV
  spike_time_steps : List ℕ
  interpolated_spike_voltages : List FV
  interpolated_spike_thresholds : List FV
  deriving Repr

namespace GLIFNeuron

/-- Source lines 210-217: on a detected spike, append the step index, the grid
time `time_step*dt`, the interpolated spike time, and the voltage and
threshold interpolated at that time. -/
def recordSpike (n : GLIFNeuron) (acc : RunResult) (time_step : ℕ)
    (v0 th0 v1 th1 : FV) : RunResult :=
  let T := interpolatedSpikeTimeRun n.cfg.dt time_step v0 th0 v1 th1
  { acc with
    spike_time_steps := acc.spike_time_steps ++ [time_step]
    spike_times := acc.spike_times ++ [FV.fin time_step * n.cfg.dt]
    interpolated_spike_times := acc.interpolated_spike_times ++ [T]
    interpolated_spike_voltages :=
      acc.interpolated_spike_voltages ++ [interpolatedValueRun n.cfg.dt time_step v0 v1 T]
    interpolated_spike_thresholds :=
      acc.interpolated_spike_thresholds ++ [interpolatedValueRun n.cfg.dt time_step th0 th1 T] }

/-- Source lines 225-227: blank the next `nsteps` output samples of all three
traces with the nan sentinel. -/
def blankOutputs (acc : RunResult) (time_step nsteps numASC : ℕ) : RunResult :=
  { acc with
    voltage_out := setRange acc.voltage_out time_step nsteps FV.nan
    threshold_out := setRange acc.threshold_out time_step nsteps FV.nan
    AScurrents_out := setRange acc.AScurrents_out time_step nsteps (List.replicate numASC FV.nan) }

/-- Source lines 232-234 / 239-241: store a state into the output traces at
one index. -/
def writeOutputs (acc : RunResult) (time_step : ℕ) (v th : FV) (asc : List FV) : RunResult :=
  { acc with
    voltage_out := acc.voltage_out.set time_step v
    threshold_out := acc.threshold_out.set time_step th
    AScurrents_out := acc.AScurrents_out.set time_step asc }

/-- The free-run `while` loop (source lines 185-247), fuel-indexed: one fuel
unit per loop iteration.  `none` means the fuel ran out; `run_terminates`
shows `stim.length` fuel always suffices, so the loop is a bounded sequential
computation.  On a detected spike (`voltage_t1 > threshold_t1`) the spike is
recorded, the state is reset, and either `spike_cut_length` samples are
blanked and the index jumps by `spike_cut_length`, or (`spike_cut_length = 0`)
the reset state is written at the current index and the index advances by 1. -/
def runAux (n : GLIFNeuron) (stim : List FV) (numASC : ℕ) :
    ℕ → ℕ → FV → FV → List FV → RunResult → Option (Except Err RunResult)
  | 0, time_step, _, _, _, acc =>
    if time_step < stim.length then none else some (.ok acc)
  | fuel + 1, time_step, voltage_t0, threshold_t0, AScurrents_t0, acc =>
    if time_step < stim.length then
      let r := n.dynamics voltage_t0 threshold_t0 AScurrents_t0
        (stim.getD time_step FV.nan) time_step acc.spike_time_steps
      if FV.lt r.2.1 r.1 then
        let acc1 := recordSpike n acc time_step voltage_t0 threshold_t0 r.1 r.2.1
        match n.reset r.1 r.2.1 r.2.2 time_step with
        | .error e => some (.error e)
        | .ok rst =>
          if 0 < n.cfg.spike_cut_length then
            runAux n stim numASC fuel (time_step + n.cfg.spike_cut_length)
              rst.1 rst.2.1 rst.2.2
              (blankOutputs acc1 time_step n.cfg.spike_cut_length numASC)
          else
            runAux n stim numASC fuel (time_step + 1) rst.1 rst.2.1 rst.2.2
              (writeOutputs acc1 time_step rst.1 rst.2.1 rst.2.2)
      else
        runAux n stim numASC fuel (time_step + 1) r.1 r.2.1 r.2.2
          (writeOutputs acc time_step r.1 r.2.1 r.2.2)
    else some (.ok acc)

end GLIFNeuron

/-- The pre-allocated output record of the free-run loop (source lines
169-182): traces of the stimulus length filled with the nan sentinel, and
empty per-spike sequences. -/
def initRunResult (num_time_steps numASC : ℕ) : RunResult :=
  { voltage_out := List.replicate num_time_steps FV.nan
    threshold_out := List.replicate num_time_steps FV.nan
    AScurrents_out := List.replicate num_time_steps (List.replicate numASC FV.nan)
    spike_times := []
    interpolated_spike_times := []
    spike_time_steps := []
    interpolated_spike_voltages := []
    interpolated_spike_thresholds := [] }

namespace GLIFNeuron

/-- `GLIFNeuron.run` (source lines 154-249): pre-allocate the nan-filled
output traces (lines 170-175), start the loop at step 0 with the
caller-supplied state.  The `Option` layer is the fuel artifact of the
embedding; `run_terminates` proves it is always `some`. -/
def run (n : GLIFNeuron) (voltage_t0 threshold_t0 : FV) (AScurrents_t0 : List FV)
    (stim : List FV) : Option (Except Err RunResult) :=
  runAux n stim AScurrents_t0.length stim.length 0 voltage_t0 threshold_t0 AScurrents_t0
    (initRunResult stim.length AScurrents_t0.length)

end GLIFNeuron

/-!
## Run-until-spike segment primitive (`run_until_spike`, source lines 436-552)
-/

/-- Python sequence indexing with negative-index wraparound (`l[-1]` is the
last element); used for the `[-1]` and `[time_step-1]` accesses of the scan
and interpolation code (an index `-1` at scan index 0 silently wraps to the
end of the trace, exactly as in Python). -/
def pythonGet (l : List FV) (i : ℤ) : FV :=
  if 0 ≤ i then l.getD i.toNat FV.nan else l.getD (l.length - (-i).toNat) FV.nan

/-- Python `int()` truncation toward zero of an exact rational. -/
def pythonIntTrunc (q : ℚ) : ℤ := if 0 ≤ q then ⌊q⌋ else -⌊-q⌋

/-- Python `int()` on a double: truncation toward zero; `int(nan)` raises
`ValueError` and `int(±inf)` raises `OverflowError`. -/
def pythonInt (x : FV) : Except Err ℤ :=
  match x with
  | .fin q => .ok (pythonIntTrunc q)
  | .nan => .error .valueError
  | _ => .error .overflowError

/-- The non-finite-state guard of `run_until_spike` (source line 506):
`isnan(v) or isinf(v) or isnan(th) or isinf(th) or any(isnan(asc)) or
any(isinf(asc))`. -/
def stateIsBad (s : FV × FV × List FV) : Bool :=
  s.1.isBad || s.2.1.isBad || s.2.2.any FV.isBad

/-- The scan of the recorded traces for the first index where the recorded
voltage exceeds the recorded threshold (source lines 525-529). -/
def firstCrossIndex (vOut thOut : List FV) : Option ℕ :=
  (List.zip vOut thOut).findIdx? (fun p => FV.lt p.2 p.1)

/-- State carried by the recording loop of `run_until_spike` (source lines
500-522): the current `t0` state, the last dynamics output (`voltage_t1`
etc., `none` until the first iteration has run, mirroring the unbound Python
local), and the recorded traces. -/
structure RUSLoopState where
  voltage_t0 : FV
  threshold_t0 : FV
  AScurrents_t0 : List FV
  last_t1 : Option (FV × FV × List FV)
  voltage_out : List FV
  threshold_out : List FV
  AScurrent_matrix : List (List FV)
  deriving Repr

/-- Return record of `run_until_spike` (source lines 549-552; the tuple
components in order, with `yaySpike` the value of
`grid_spike_time is not None` at return). -/
structure RUSResult where
  voltage_out : List FV
  threshold_out : List FV
  AScurrent_matrix : List (List FV)
  grid_spike_time : FV
  interpolated_spike_time : FV
  yaySpike : Bool
  voltage_t0 : FV
  threshold_t0 : FV
  AScurrents_t0 : List FV
  voltage_t1 : FV
  threshold_t1 : FV
  v_at_interp : FV
  th_at_interp : FV
  deriving Repr

namespace GLIFNeuron

/-- The recording loop of `run_until_spike` (source lines 500-522): at each
of the `num_time_steps` local steps, record the current state into the
traces, fail with the fixed-message invalid-state error if the current state
is non-finite (source lines 506-516; the step index and the trailing window
of prior values are written to the error log, not carried by the raised
exception), then advance the state by one dynamics step.  The loop does not
stop on a threshold crossing. -/
def rusLoop (n : GLIFNeuron) (stim : List FV) (start_index : ℕ)
    (spike_time_steps : List ℕ) :
    ℕ → ℕ → RUSLoopState → Except Err RUSLoopState
  | 0, _, st => .ok st
  | rem + 1, time_step, st =>
    let st1 := { st with
      voltage_out := st.voltage_out ++ [st.voltage_t0]
      threshold_out := st.threshold_out ++ [st.threshold_t0]
      AScurrent_matrix := st.AScurrent_matrix ++ [st.AScurrents_t0] }
    if stateIsBad (st.voltage_t0, st.threshold_t0, st.AScurrents_t0) then
      .error .invalidValue
    else
      let r := n.dynamics st.voltage_t0 st.threshold_t0 st.AScurrents_t0
        (stim.getD (time_step + start_index) FV.nan) (time_step + start_index)
        spike_time_steps
      rusLoop n stim start_index spike_time_steps rem (time_step + 1)
        { voltage_t0 := r.1, threshold_t0 := r.2.1, AScurrents_t0 := r.2.2
          last_t1 := some r
          voltage_out := st1.voltage_out
          threshold_out := st1.threshold_out
          AScurrent_matrix := st1.AScurrent_matrix }

/-- `run_until_spike` (source lines 436-552).  Integrates the whole segment
`[start_index, end_index)` unconditionally, then scans for the first recorded
crossing; if none, attributes a spike to the boundary when the final state is
above the last recorded threshold; forces a reset at the end when
`target_spike_exists`; extrapolates the spike time when the model never
crossed; and interpolates the model state at the target's sub-step offset.
On an empty segment the boundary check `threshold_out[-1]` raises
(`indexError`), matching the Python IndexError on the empty array. -/
def runUntilSpike (n : GLIFNeuron) (voltage_t0 threshold_t0 : FV)
    (AScurrents_t0 : List FV) (stim : List FV) (start_index end_index : ℕ)
    (spike_time_steps : List ℕ) (target_spike_exists : Bool)
    (delta_t_wrt_grid_right_before_spike : FV) : Except Err RUSResult :=
  -- line 484: `AScurrents_t0 = np.copy(AScurrents_t0)` — identity under the
  -- value semantics of the embedding
  let num_time_steps := end_index - start_index
  match rusLoop n stim start_index spike_time_steps num_time_steps 0
      { voltage_t0 := voltage_t0, threshold_t0 := threshold_t0
        AScurrents_t0 := AScurrents_t0, last_t1 := none
        voltage_out := [], threshold_out := [], AScurrent_matrix := [] } with
  | .error e => .error e
  | .ok st =>
    match st.threshold_out.getLast? with
    | none => .error .indexError
    | some lastTh =>
      match st.last_t1 with
      | none => .error .nameError
      | some t1 =>
        let cross := firstCrossIndex st.voltage_out st.threshold_out
        -- lines 525-529 (scan) and 531-534 (boundary attribution)
        let gi : Option (FV × FV) :=
          match cross with
          | some ts =>
            some (n.cfg.dt * FV.fin ts,
              interpolatedSpikeTimeRUS n.cfg.dt ts
                (pythonGet st.voltage_out ((ts : ℤ) - 1))
                (pythonGet st.threshold_out ((ts : ℤ) - 1))
                (pythonGet st.voltage_out (ts : ℤ))
                (pythonGet st.threshold_out (ts : ℤ)))
          | none =>
            if FV.lt lastTh st.voltage_t0 then
              some (n.cfg.dt * FV.fin num_time_steps,
                interpolatedSpikeTimeRUS n.cfg.dt num_time_steps
                  (pythonGet st.voltage_out ((num_time_steps : ℤ) - 1))
                  (pythonGet st.threshold_out ((num_time_steps : ℤ) - 1))
                  st.voltage_t0 st.threshold_t0)
            else none
        -- the scan loop's `time_step` variable at line 538: the break index,
        -- or `num_time_steps - 1` if the scan ran to completion
        let t_reset := match cross with | some ts => ts | none => num_time_steps - 1
        -- line 537: if the target spiked, reset at the end using the final
        -- dynamics outputs (so the next segment starts from the reset state)
        match (if target_spike_exists then n.reset t1.1 t1.2.1 t1.2.2 t_reset
               else .ok (st.voltage_t0, st.threshold_t0, st.AScurrents_t0)) with
        | .error e => .error e
        | .ok post =>
          -- lines 541-544: extrapolate the spike time from the final linear
          -- trend if the model never spiked
          let final : FV × FV :=
            match gi with
            | some p => p
            | none =>
              let interp := n.cfg.dt * FV.fin num_time_steps /
                (FV.fin 1 - (t1.2.1 - t1.1) / (post.2.1 - post.1))
              (FV.ceil (interp / n.cfg.dt) * n.cfg.dt, interp)
          .ok { voltage_out := st.voltage_out
                threshold_out := st.threshold_out
                AScurrent_matrix := st.AScurrent_matrix
                grid_spike_time := final.1
                interpolated_spike_time := final.2
                yaySpike := true
                voltage_t0 := post.1
                threshold_t0 := post.2.1
                AScurrents_t0 := post.2.2
                voltage_t1 := t1.1
                threshold_t1 := t1.2.1
                v_at_interp := pythonGet st.voltage_out (-1) +
                  delta_t_wrt_grid_right_before_spike *
                    (t1.1 - pythonGet st.voltage_out (-1)) / n.cfg.dt
                th_at_interp := pythonGet st.threshold_out (-1) +
                  delta_t_wrt_grid_right_before_spike *
                    (t1.2.1 - pythonGet st.threshold_out (-1)) / n.cfg.dt }

end GLIFNeuron

/-!
## Target-aligned run loop (`run_wrt_target_spike_train`, source lines 252-434)
-/

/-- Write the elements of `src` into `dst` starting at index `i` (numpy slice
assignment `dst[i:i+len(src)] = src`). -/
def writeSeg {α : Type} (dst : List α) (i : ℕ) (src : List α) : List α :=
  match src with
  | [] => dst
  | a :: rest => writeSeg (dst.set i a) (i + 1) rest

/-- All accumulated outputs of the target-aligned loop before the final
consistency checks: the three whole-stimulus traces and the per-spike arrays.
`interpolatedVoltageArray` is allocated by the source (line 344) and
length-checked (line 428) but never assigned and never returned; only its
length is observable, so its `np.empty` contents are modelled as nan. -/
structure RWTPre where
  voltage : List FV
  threshold : List FV
  AScurrent_matrix : List (List FV)
  gridTimeArray : List FV
  interpolatedTimeArray : List FV
  gridISIFromLastTargSpike : List FV
  interpolatedISIFromLastTargSpike : List FV
  voltageOfModelAtGridBioSpike : List FV
  threshOfModelAtGridBioSpike : List FV
  v_ofModelAtInterpolatedBioSpike : List FV
  thresh_ofModelAtInterpolatedBioSpike : List FV
  interpolatedVoltageArray : List FV
  deriving Repr

/-- Return record of `run_wrt_target_spike_train` (source line 434). -/
structure RWTResult where
  voltage : List FV
  threshold : List FV
  AScurrent_matrix : List (List FV)
  gridTimeArray : List FV
  interpolatedTimeArray : List FV
  gridISIFromLastTargSpike : List FV
  interpolatedISIFromLastTargSpike : List FV
  voltageOfModelAtGridBioSpike : List FV
  threshOfModelAtGridBioSpike : List FV
  v_ofModelAtInterpolatedBioSpike : List FV
  thresh_ofModelAtInterpolatedBioSpike : List FV
  deriving Repr

/-- The post-run consistency checks of `run_wrt_target_spike_train` (source
lines 412-432): any nan left in the voltage, threshold, or after-spike-current
trace fails with the corresponding incomplete-trace error; any per-spike array
whose length differs from the number of target spikes fails with the
spike-count mismatch error; only a run passing every check returns its
outputs. -/
def finalChecks (num_spikes : ℕ) (pre : RWTPre) : Except Err RWTResult :=
  if pre.voltage.any FV.isNan then .error (.incompleteTrace 0)
  else if pre.threshold.any FV.isNan then .error (.incompleteTrace 1)
  else if pre.AScurrent_matrix.any (fun row => row.any FV.isNan) then .error (.incompleteTrace 2)
  else if pre.interpolatedTimeArray.length ≠ num_spikes ∨
      pre.interpolatedVoltageArray.length ≠ num_spikes ∨
      pre.gridTimeArray.length ≠ num_spikes ∨
      pre.gridISIFromLastTargSpike.length ≠ num_spikes ∨
      pre.interpolatedISIFromLastTargSpike.length ≠ num_spikes ∨
      pre.voltageOfModelAtGridBioSpike.length ≠ num_spikes ∨
      pre.threshOfModelAtGridBioSpike.length ≠ num_spikes ∨
      pre.v_ofModelAtInterpolatedBioSpike.length ≠ num_spikes ∨
      pre.thresh_ofModelAtInterpolatedBioSpike.length ≠ num_spikes then
    .error .spikeCountMismatch
  else
    .ok { voltage := pre.voltage
          threshold := pre.threshold
          AScurrent_matrix := pre.AScurrent_matrix
          gridTimeArray := pre.gridTimeArray
          interpolatedTimeArray := pre.interpolatedTimeArray
          gridISIFromLastTargSpike := pre.gridISIFromLastTargSpike
          interpolatedISIFromLastTargSpike := pre.interpolatedISIFromLastTargSpike
          voltageOfModelAtGridBioSpike := pre.voltageOfModelAtGridBioSpike
          threshOfModelAtGridBioSpike := pre.threshOfModelAtGridBioSpike
          v_ofModelAtInterpolatedBioSpike := pre.v_ofModelAtInterpolatedBioSpike
          thresh_ofModelAtInterpolatedBioSpike := pre.thresh_ofModelAtInterpolatedBioSpike }

/-- The per-target-spike time offset (source lines 300-301):
`interpolated_spike_times[k] - (spike_train_ids[k] - 1) * dt`. -/
def deltaWrt (n : GLIFNeuron) (spike_train_ids : List ℕ)
    (interpolated_spike_times : List FV) (k : ℕ) : FV :=
  interpolated_spike_times.getD k FV.nan -
    (FV.fin (spike_train_ids.getD k 0) - FV.fin 1) * n.cfg.dt

/-- State carried between segments of the target-aligned loop: the model
state handed to the next segment (the post-reset state returned by
`run_until_spike`), the running start index, the three whole-stimulus traces,
and the eight per-spike accumulators (each assigned once per target spike, in
order). -/
structure RWTLoopState where
  voltage_t0 : FV
  threshold_t0 : FV
  AScurrents_t0 : List FV
  start_index : ℕ
  voltage : List FV
  threshold : List FV
  AScurrent_matrix : List (List FV)
  gridISI : List FV
  interpISI : List FV
  interpTime : List FV
  gridTime : List FV
  vAtGrid : List FV
  thAtGrid : List FV
  vAtInterp : List FV
  thAtInterp : List FV
  deriving Repr

namespace GLIFNeuron

/-- The per-target-spike segment loop (source lines 363-392): for each target
index in order, run the segment from the previous boundary to the target
index via `run_until_spike` (forcing a reset there, since
`target_spike_exists` is true on this path), copy the segment trace into the
whole-stimulus arrays, record the seven per-spike statistics, and continue
from the post-reset state. -/
def rwtLoop (n : GLIFNeuron) (stim : List FV) (all_ids : List ℕ)
    (interpolated_spike_times : List FV) (target_spike_exists : Bool) :
    List ℕ → ℕ → RWTLoopState → Except Err RWTLoopState
  | [], _, st => .ok st
  | end_id :: rest, spike_num, st =>
    -- line 373: `int(delta_t_wrt_grid_right_before_spike[spike_num])`
    match pythonInt (deltaWrt n all_ids interpolated_spike_times spike_num) with
    | .error e => .error e
    | .ok d =>
      match runUntilSpike n st.voltage_t0 st.threshold_t0 st.AScurrents_t0 stim
          st.start_index end_id all_ids target_spike_exists (FV.fin d) with
      | .error e => .error e
      | .ok r =>
        rwtLoop n stim all_ids interpolated_spike_times target_spike_exists rest
          (spike_num + 1)
          { voltage_t0 := r.voltage_t0
            threshold_t0 := r.threshold_t0
            AScurrents_t0 := r.AScurrents_t0
            start_index := end_id
            voltage := writeSeg st.voltage st.start_index r.voltage_out
            threshold := writeSeg st.threshold st.start_index r.threshold_out
            AScurrent_matrix := writeSeg st.AScurrent_matrix st.start_index r.AScurrent_matrix
            gridISI := st.gridISI ++ [r.grid_spike_time]
            interpISI := st.interpISI ++ [r.interpolated_spike_time]
            interpTime := st.interpTime ++
              [r.interpolated_spike_time + FV.fin st.start_index * n.cfg.dt]
            gridTime := st.gridTime ++
              [r.grid_spike_time + FV.fin st.start_index * n.cfg.dt]
            vAtGrid := st.vAtGrid ++ [r.voltage_t1]
            thAtGrid := st.thAtGrid ++ [r.threshold_t1]
            vAtInterp := st.vAtInterp ++ [r.v_at_interp]
            thAtInterp := st.thAtInterp ++ [r.th_at_interp] }

/-- `run_wrt_target_spike_train` (source lines 252-434).  With no target
spikes (and `target_spike_exists` required false, line 305), the stimulus is
run as one segment from index 0 to `len(stim) - 1` (line 311) and the
per-spike outputs are all empty.  Otherwise (`target_spike_exists` required
true, line 337) each target index is processed by `rwtLoop`, and one trailing
segment is run from the last target index to the end of the stimulus,
passing the same `target_spike_exists` flag (line 405) — which is necessarily
true on this branch, so a reset is forced at the end of the trailing segment;
no per-spike statistics are recorded for the trailing segment (lines
407-409).  The final consistency checks then gate the return value. -/
def runWrtTargetSpikeTrain (n : GLIFNeuron) (voltage_t0 threshold_t0 : FV)
    (AScurrents_t0 : List FV) (stim : List FV) (spike_train_ids : List ℕ)
    (target_spike_exists : Bool) (interpolated_spike_times : List FV) :
    Except Err RWTResult :=
  let num_spikes := spike_train_ids.length
  if num_spikes = 0 then
    -- line 305: `assert target_spike_exists is False`
    if target_spike_exists then .error .targetFlagAssert
    else
      -- lines 308-312: one segment from 0 to len(stim)-1; the source then
      -- warns (lines 318-323) when the returned traces are shorter than the
      -- stimulus — which is always the case here
      match runUntilSpike n voltage_t0 threshold_t0 AScurrents_t0 stim 0
          (stim.length - 1) [] target_spike_exists n.cfg.dt with
      | .error e => .error e
      | .ok r =>
        finalChecks num_spikes
          { voltage := r.voltage_out
            threshold := r.threshold_out
            AScurrent_matrix := r.AScurrent_matrix
            gridTimeArray := []
            interpolatedTimeArray := []
            gridISIFromLastTargSpike := []
            interpolatedISIFromLastTargSpike := []
            voltageOfModelAtGridBioSpike := []
            threshOfModelAtGridBioSpike := []
            v_ofModelAtInterpolatedBioSpike := []
            thresh_ofModelAtInterpolatedBioSpike := []
            interpolatedVoltageArray := [] }
  else
    -- line 337: `assert target_spike_exists is True`
    if !target_spike_exists then .error .targetFlagAssert
    else
      match rwtLoop n stim spike_train_ids interpolated_spike_times
          target_spike_exists spike_train_ids 0
          { voltage_t0 := voltage_t0
            threshold_t0 := threshold_t0
            AScurrents_t0 := AScurrents_t0
            start_index := 0
            voltage := List.replicate stim.length FV.nan
            threshold := List.replicate stim.length FV.nan
            AScurrent_matrix :=
              List.replicate stim.length (List.replicate AScurrents_t0.length FV.nan)
            gridISI := [], interpISI := [], interpTime := [], gridTime := []
            vAtGrid := [], thAtGrid := [], vAtInterp := [], thAtInterp := [] } with
      | .error e => .error e
      | .ok st =>
        -- lines 401-409: the trailing segment after the last target spike,
        -- run with the same (true) `target_spike_exists` flag; its spike
        -- statistics are deliberately not recorded
        match runUntilSpike n st.voltage_t0 st.threshold_t0 st.AScurrents_t0 stim
            (spike_train_ids.getLast?.getD 0) stim.length spike_train_ids
            target_spike_exists n.cfg.dt with
        | .error e => .error e
        | .ok r =>
          finalChecks num_spikes
            { voltage := writeSeg st.voltage (spike_train_ids.getLast?.getD 0) r.voltage_out
              threshold := writeSeg st.threshold (spike_train_ids.getLast?.getD 0) r.threshold_out
              AScurrent_matrix :=
                writeSeg st.AScurrent_matrix (spike_train_ids.getLast?.getD 0) r.AScurrent_matrix
              gridTimeArray := st.gridTime
              interpolatedTimeArray := st.interpTime
              gridISIFromLastTargSpike := st.gridISI
              interpolatedISIFromLastTargSpike := st.interpISI
              voltageOfModelAtGridBioSpike := st.vAtGrid
              threshOfModelAtGridBioSpike := st.thAtGrid
              v_ofModelAtInterpolatedBioSpike := st.vAtInterp
              thresh_ofModelAtInterpolatedBioSpike := st.thAtInterp
              interpolatedVoltageArray := List.replicate num_spikes FV.nan }

end GLIFNeuron

/-!
## Construction (`GLIFNeuron.__init__`, source lines 18-60)
-/

/-- `GLIFNeuron.__init__` (source lines 18-60): store the physical
parameters; assert `len(tau) == len(asc_vector)` (line 31) before anything
else is derived; derive `k = 1/tau` and `G = 1/R_input`; build the defaulted
coefficient map and apply the caller's overrides; then resolve the six
strategy methods against the method library, failing with the corresponding
configuration error on the first unresolved one.  The six `lib`/`mcfg`
argument pairs are the `METHOD_LIBRARY` rows (from `neuron_methods.py`,
outside the provided sources, hence parameters here) and the raw
`{name, params}` configuration records. -/
def glifNeuronInit {π1 π2 π3 π4 π5 π6 : Type}
    (El dt : FV) (tau : List FV) (R_input C : FV) (asc_vector : List FV)
    (spike_cut_length : ℕ) (th_inf : FV) (coeffs : CoeffOverrides)
    (ascDynLib : Option (String → Option AScurrentDynT)) (ascDynCfg : MethodConfig π1)
    (vDynLib : Option (String → Option VoltageDynT)) (vDynCfg : MethodConfig π2)
    (thDynLib : Option (String → Option ThresholdDynT)) (thDynCfg : MethodConfig π3)
    (ascResetLib : Option (String → Option AScurrentResetT)) (ascResetCfg : MethodConfig π4)
    (vResetLib : Option (String → Option VoltageResetT)) (vResetCfg : MethodConfig π5)
    (thResetLib : Option (String → Option ThresholdResetT)) (thResetCfg : MethodConfig π6) :
    Except Err GLIFNeuron :=
  if tau.length ≠ asc_vector.length then .error .tauLengthMismatch
  else
    let defaults : Coeffs :=
      { th_inf := FV.fin 1, C := FV.fin 1, G := FV.fin 1, b := FV.fin 1, a := FV.fin 1
        asc_vector := List.replicate tau.length (FV.fin 1) }
    let merged : Coeffs :=
      { th_inf := coeffs.th_inf.getD defaults.th_inf
        C := coeffs.C.getD defaults.C
        G := coeffs.G.getD defaults.G
        b := coeffs.b.getD defaults.b
        a := coeffs.a.getD defaults.a
        asc_vector := coeffs.asc_vector.getD defaults.asc_vector }
    let cfg : NeuronConfig :=
      { El := El, dt := dt, tau := tau, R_input := R_input, C := C
        asc_vector := asc_vector, spike_cut_length := spike_cut_length
        th_inf := th_inf
        k := tau.map (fun t => FV.fin 1 / t)
        G := FV.fin 1 / R_input
        coeffs := merged }
    match configureLibraryMethod ascDynLib ascDynCfg with
    | .error e => .error e
    | .ok m1 =>
      match configureLibraryMethod vDynLib vDynCfg with
      | .error e => .error e
      | .ok m2 =>
        match configureLibraryMethod thDynLib thDynCfg with
        | .error e => .error e
        | .ok m3 =>
          match configureLibraryMethod ascResetLib ascResetCfg with
          | .error e => .error e
          | .ok m4 =>
            match configureLibraryMethod vResetLib vResetCfg with
            | .error e => .error e
            | .ok m5 =>
              match configureLibraryMethod thResetLib thResetCfg with
              | .error e => .error e
              | .ok m6 =>
                .ok { cfg := cfg
                      AScurrent_dynamics_method := m1.method
                      voltage_dynamics_method := m2.method
                      threshold_dynamics_method := m3.method
                      AScurrent_reset_method := m4.method
                      voltage_reset_method := m5.method
                      threshold_reset_method := m6.method }

/-!
## Step-state iteration of the segment primitive (for the non-finite guard)
-/

namespace GLIFNeuron

/-- The sequence of states the recording loop of `run_until_spike` visits at
the top of each local step: `k` dynamics steps applied to the segment's
initial state (the state checked by the non-finite guard at local step `k`). -/
def rusStepStates (n : GLIFNeuron) (stim : List FV) (start_index : ℕ)
    (spike_time_steps : List ℕ) (init : FV × FV × List FV) :
    ℕ → FV × FV × List FV
  | 0 => init
  | k + 1 =>
    let s := rusStepStates n stim start_index spike_time_steps init k
    n.dynamics s.1 s.2.1 s.2.2 (stim.getD (k + start_index) FV.nan)
      (k + start_index) spike_time_steps

end GLIFNeuron

/-!
## Concrete neurons and inputs used by the witnesses and counterexamples
-/

/-- A concrete numeric configuration with unit constants, no after-spike
currents, `dt = 1`, and the given refractory length. -/
def exampleConfig (scl : ℕ) : NeuronConfig :=
  { El := FV.fin 0, dt := FV.fin 1, tau := [], R_input := FV.fin 1, C := FV.fin 1
    asc_vector := [], spike_cut_length := scl, th_inf := FV.fin 1
    k := [], G := FV.fin 1
    coeffs := { th_inf := FV.fin 1, C := FV.fin 1, G := FV.fin 1, b := FV.fin 1
                a := FV.fin 1, asc_vector := [] } }

/-- Concrete neuron: voltage integrates the injected current
(`v <- v + inj`), threshold and after-spike currents are constant, and the
reset rules set the voltage to 0 and keep the threshold. -/
def constResetNeuron (scl : ℕ) : GLIFNeuron :=
  { cfg := exampleConfig scl
    AScurrent_dynamics_method := fun _ a _ _ => a
    voltage_dynamics_method := fun _ v _ inj => v + inj
    threshold_dynamics_method := fun _ th _ => th
    AScurrent_reset_method := fun _ a _ => a
    voltage_reset_method := fun _ _ => FV.fin 0
    threshold_reset_method := fun _ th _ => th }

/-- Concrete neuron: voltage integrates the injected current, and the voltage
reset subtracts 1 from the pre-reset voltage (so a reset from a
sufficiently high voltage lands above the unchanged threshold). -/
def decResetNeuron : GLIFNeuron :=
  { cfg := exampleConfig 0
    AScurrent_dynamics_method := fun _ a _ _ => a
    voltage_dynamics_method := fun _ v _ inj => v + inj
    threshold_dynamics_method := fun _ th _ => th
    AScurrent_reset_method := fun _ a _ => a
    voltage_reset_method := fun _ v => v - FV.fin 1
    threshold_reset_method := fun _ th _ => th }

/-- Concrete neuron whose reset rules always produce voltage 5 and
threshold 3, violating the reset invariant. -/
def badResetNeuron : GLIFNeuron :=
  { cfg := exampleConfig 0
    AScurrent_dynamics_method := fun _ a _ _ => a
    voltage_dynamics_method := fun _ v _ _ => v
    threshold_dynamics_method := fun _ th _ => th
    AScurrent_reset_method := fun _ a _ => a
    voltage_reset_method := fun _ _ => FV.fin 5
    threshold_reset_method := fun _ _ _ => FV.fin 3 }

/-!
# Theorems
-/

namespace FV

@[simp] theorem add_fin_fin (a b : ℚ) : fin a + fin b = fin (a + b) := rfl

@[simp] theorem sub_fin_fin (a b : ℚ) : fin a - fin b = fin (a - b) := by
  show sub (fin a) (fin b) = fin (a - b)
  simp [sub, neg, add, sub_eq_add_neg]

@[simp] theorem mul_fin_fin (a b : ℚ) : fin a * fin b = fin (a * b) := rfl

theorem div_fin_fin (a b : ℚ) (h : b ≠ 0) : fin a / fin b = fin (a / b) := by
  show div (fin a) (fin b) = fin (a / b)
  simp [div, h]

@[simp] theorem lt_fin_fin (a b : ℚ) : lt (fin a) (fin b) = decide (a < b) := rfl

@[simp] theorem isBad_fin (q : ℚ) : isBad (fin q) = false := rfl

@[simp] theorem isNan_fin (q : ℚ) : isNan (fin q) = false := rfl

end FV

/-!
## Supporting lemmas about `setRange` and the free-run loop
-/

theorem setRange_length {α : Type} (l : List α) (i n : ℕ) (a : α) :
    (setRange l i n a).length = l.length := by
  induction n generalizing l i with
  | zero => rfl
  | succ m ih => rw [setRange, ih, List.length_set]

theorem setRange_getElem_lt {α : Type} (l : List α) (i n j : ℕ) (a : α) (h : j < i) :
    (setRange l i n a)[j]? = l[j]? := by
  induction n generalizing l i with
  | zero => rfl
  | succ m ih =>
    rw [setRange, ih _ _ (Nat.lt_succ_of_lt h)]
    exact List.getElem?_set_ne (Nat.ne_of_gt h)

theorem setRange_getElem_mem {α : Type} (l : List α) (i n j : ℕ) (a : α)
    (h1 : i ≤ j) (h2 : j < i + n) (h3 : j < l.length) :
    (setRange l i n a)[j]? = some a := by
  induction n generalizing l i with
  | zero => omega
  | succ m ih =>
    rw [setRange]
    rcases Nat.eq_or_lt_of_le h1 with he | hlt
    · subst he
      rw [setRange_getElem_lt _ _ _ _ _ (Nat.lt_succ_self i)]
      exact List.getElem?_set_eq_of_lt a (by simpa using h3)
    · exact ih (l.set i a) (i + 1) hlt (by omega) (by simpa using h3)

namespace GLIFNeuron

/-- Frame property of the free-run loop: starting at step `time_step`, the
loop never writes an output index below `time_step`. -/
theorem runAux_frame (n : GLIFNeuron) (stim : List FV) (numASC : ℕ) :
    ∀ (fuel time_step : ℕ) (v0 th0 : FV) (asc0 : List FV) (acc res : RunResult),
    runAux n stim numASC fuel time_step v0 th0 asc0 acc = some (.ok res) →
    ∀ j, j < time_step →
      res.voltage_out[j]? = acc.voltage_out[j]? ∧
      res.threshold_out[j]? = acc.threshold_out[j]? ∧
      res.AScurrents_out[j]? = acc.AScurrents_out[j]? := by
  intro fuel
  induction fuel with
  | zero =>
    intro time_step v0 th0 asc0 acc res h j hj
    rw [runAux] at h
    split at h
    · exact absurd h (by simp)
    · cases h; exact ⟨rfl, rfl, rfl⟩
  | succ fuel ih =>
    intro time_step v0 th0 asc0 acc res h j hj
    rw [runAux] at h
    split at h
    case isTrue ht =>
      simp only at h
      split at h
      case isTrue hspike =>
        split at h
        case h_1 e he => exact absurd h (by simp)
        case h_2 rst hrst =>
          split at h
          case isTrue hscl =>
            have step := ih _ _ _ _ _ _ h j (by omega)
            refine ⟨?_, ?_, ?_⟩ <;>
              simp only [step.1, step.2.1, step.2.2, blankOutputs, recordSpike] <;>
              exact setRange_getElem_lt _ _ _ _ _ hj
          case isFalse hscl =>
            have step := ih _ _ _ _ _ _ h j (by omega)
            refine ⟨?_, ?_, ?_⟩ <;>
              simp only [step.1, step.2.1, step.2.2, writeOutputs, recordSpike] <;>
              exact List.getElem?_set_ne (Nat.ne_of_gt hj)
      case isFalse hspike =>
        have step := ih _ _ _ _ _ _ h j (by omega)
        refine ⟨?_, ?_, ?_⟩ <;>
          simp only [step.1, step.2.1, step.2.2, writeOutputs] <;>
          exact List.getElem?_set_ne (Nat.ne_of_gt hj)
    case isFalse ht =>
      cases h; exact ⟨rfl, rfl, rfl⟩

/-- Fuel sufficiency for the free-run loop: `stim.length - time_step`
iterations always finish the loop, because every iteration advances the step
index by at least one (by `spike_cut_length ≥ 1` on a blanking spike step,
by one otherwise). -/
theorem runAux_isSome (n : GLIFNeuron) (stim : List FV) (numASC : ℕ) :
    ∀ (fuel time_step : ℕ) (v0 th0 : FV) (asc0 : List FV) (acc : RunResult),
    stim.length ≤ time_step + fuel →
    (runAux n stim numASC fuel time_step v0 th0 asc0 acc).isSome := by
  intro fuel
  induction fuel with
  | zero =>
    intro time_step v0 th0 asc0 acc hle
    rw [runAux]
    split
    · omega
    · simp
  | succ fuel ih =>
    intro time_step v0 th0 asc0 acc hle
    rw [runAux]
    split
    case isTrue ht =>
      simp only
      split
      case isTrue hspike =>
        cases hrst : n.reset _ _ _ time_step with
        | error e => simp
        | ok rst =>
          simp only
          split
          case isTrue hscl => exact ih _ _ _ _ _ (by omega)
          case isFalse hscl => exact ih _ _ _ _ _ (by omega)
      case isFalse hspike => exact ih _ _ _ _ _ (by omega)
    case isFalse ht => simp
end GLIFNeuron

/-- C10: For every finite stimulus and every configuration (the refractory
length `spike_cut_length` is a non-negative integer by type), the free-run
loop terminates: each iteration advances the step index by at least 1 (by
`spike_cut_length` on a blanking spike step, by 1 otherwise), so
`stim.length` fuel always suffices and `run` always produces a result. -/
theorem run_terminates (n : GLIFNeuron) (voltage_t0 threshold_t0 : FV)
    (AScurrents_t0 : List FV) (stim : List FV) :
    (GLIFNeuron.run n voltage_t0 threshold_t0 AScurrents_t0 stim).isSome :=
  GLIFNeuron.runAux_isSome n stim AScurrents_t0.length stim.length 0
    voltage_t0 threshold_t0 AScurrents_t0 _ (by omega)

/-- C3: In the free-run loop, on a spike detected at step `time_step` (the
dynamics output crosses, `voltage_t1 > threshold_t1`) with a successful
reset: if the refractory length `n = spike_cut_length` is positive, the
`n` consecutive output samples starting at index `time_step` (those that
exist, i.e. with index below the stimulus length) carry the nan sentinel in
the voltage trace, the threshold trace, and the after-spike-current rows of
the final result, and integration resumes at step `time_step + n` (the loop
continues exactly as the same loop restarted there from the reset state over
the blanked traces); if `n = 0`, the post-reset voltage, threshold and
after-spike currents are written into the output traces at index `time_step`
itself and integration resumes at step `time_step + 1`. -/
theorem run_refractory_blanking (n : GLIFNeuron) (stim : List FV)
    (numASC fuel time_step : ℕ) (v0 th0 v1 th1 vr thr : FV)
    (asc0 asc1 ascr : List FV) (acc : RunResult)
    (ht : time_step < stim.length)
    (hdyn : n.dynamics v0 th0 asc0 (stim.getD time_step FV.nan) time_step
      acc.spike_time_steps = (v1, th1, asc1))
    (hspike : FV.lt th1 v1 = true)
    (hreset : n.reset v1 th1 asc1 time_step = .ok (vr, thr, ascr))
    (hlenV : acc.voltage_out.length = stim.length)
    (hlenT : acc.threshold_out.length = stim.length)
    (hlenA : acc.AScurrents_out.length = stim.length) :
    (0 < n.cfg.spike_cut_length →
      GLIFNeuron.runAux n stim numASC (fuel + 1) time_step v0 th0 asc0 acc =
        GLIFNeuron.runAux n stim numASC fuel (time_step + n.cfg.spike_cut_length)
          vr thr ascr
          (GLIFNeuron.blankOutputs (GLIFNeuron.recordSpike n acc time_step v0 th0 v1 th1)
            time_step n.cfg.spike_cut_length numASC) ∧
      ∀ res, GLIFNeuron.runAux n stim numASC (fuel + 1) time_step v0 th0 asc0 acc =
          some (.ok res) →
        ∀ i, time_step ≤ i → i < time_step + n.cfg.spike_cut_length →
          i < stim.length →
          res.voltage_out[i]? = some FV.nan ∧
          res.threshold_out[i]? = some FV.nan ∧
          res.AScurrents_out[i]? = some (List.replicate numASC FV.nan)) ∧
    (n.cfg.spike_cut_length = 0 →
      GLIFNeuron.runAux n stim numASC (fuel + 1) time_step v0 th0 asc0 acc =
        GLIFNeuron.runAux n stim numASC fuel (time_step + 1) vr thr ascr
          (GLIFNeuron.writeOutputs (GLIFNeuron.recordSpike n acc time_step v0 th0 v1 th1)
            time_step vr thr ascr) ∧
      ∀ res, GLIFNeuron.runAux n stim numASC (fuel + 1) time_step v0 th0 asc0 acc =
          some (.ok res) →
        res.voltage_out[time_step]? = some vr ∧
        res.threshold_out[time_step]? = some thr ∧
        res.AScurrents_out[time_step]? = some ascr) := by
  by_cases hscl : 0 < n.cfg.spike_cut_length
  case pos =>
    have heq : GLIFNeuron.runAux n stim numASC (fuel + 1) time_step v0 th0 asc0 acc =
        GLIFNeuron.runAux n stim numASC fuel (time_step + n.cfg.spike_cut_length)
          vr thr ascr
          (GLIFNeuron.blankOutputs (GLIFNeuron.recordSpike n acc time_step v0 th0 v1 th1)
            time_step n.cfg.spike_cut_length numASC) := by
      rw [GLIFNeuron.runAux, if_pos ht]
      simp only [hdyn, hspike, if_true, hreset, if_pos hscl]
    refine ⟨fun _ => ⟨heq, ?_⟩, fun h0 => absurd hscl (by omega)⟩
    intro res hres i hi1 hi2 hi3
    rw [heq] at hres
    have hframe := GLIFNeuron.runAux_frame n stim numASC fuel _ _ _ _ _ _ hres i (by omega)
    have hV : (GLIFNeuron.blankOutputs (GLIFNeuron.recordSpike n acc time_step v0 th0 v1 th1)
        time_step n.cfg.spike_cut_length numASC).voltage_out =
        setRange acc.voltage_out time_step n.cfg.spike_cut_length FV.nan := rfl
    have hT : (GLIFNeuron.blankOutputs (GLIFNeuron.recordSpike n acc time_step v0 th0 v1 th1)
        time_step n.cfg.spike_cut_length numASC).threshold_out =
        setRange acc.threshold_out time_step n.cfg.spike_cut_length FV.nan := rfl
    have hA : (GLIFNeuron.blankOutputs (GLIFNeuron.recordSpike n acc time_step v0 th0 v1 th1)
        time_step n.cfg.spike_cut_length numASC).AScurrents_out =
        setRange acc.AScurrents_out time_step n.cfg.spike_cut_length
          (List.replicate numASC FV.nan) := rfl
    refine ⟨?_, ?_, ?_⟩
    · rw [hframe.1, hV]
      exact setRange_getElem_mem _ _ _ _ _ hi1 hi2 (by rw [hlenV]; exact hi3)
    · rw [hframe.2.1, hT]
      exact setRange_getElem_mem _ _ _ _ _ hi1 hi2 (by rw [hlenT]; exact hi3)
    · rw [hframe.2.2, hA]
      exact setRange_getElem_mem _ _ _ _ _ hi1 hi2 (by rw [hlenA]; exact hi3)
  case neg =>
    have hscl0 : n.cfg.spike_cut_length = 0 := by omega
    have heq : GLIFNeuron.runAux n stim numASC (fuel + 1) time_step v0 th0 asc0 acc =
        GLIFNeuron.runAux n stim numASC fuel (time_step + 1) vr thr ascr
          (GLIFNeuron.writeOutputs (GLIFNeuron.recordSpike n acc time_step v0 th0 v1 th1)
            time_step vr thr ascr) := by
      rw [GLIFNeuron.runAux, if_pos ht]
      simp only [hdyn, hspike, if_true, hreset, if_neg hscl]
    refine ⟨fun h0 => absurd h0 hscl, fun _ => ⟨heq, ?_⟩⟩
    intro res hres
    rw [heq] at hres
    have hframe := GLIFNeuron.runAux_frame n stim numASC fuel _ _ _ _ _ _ hres time_step
      (by omega)
    refine ⟨?_, ?_, ?_⟩
    · rw [hframe.1]
      exact List.getElem?_set_eq_of_lt vr (by simpa [GLIFNeuron.recordSpike] using hlenV ▸ ht)
    · rw [hframe.2.1]
      exact List.getElem?_set_eq_of_lt thr (by simpa [GLIFNeuron.recordSpike] using hlenT ▸ ht)
    · rw [hframe.2.2]
      exact List.getElem?_set_eq_of_lt ascr (by simpa [GLIFNeuron.recordSpike] using hlenA ▸ ht)

/-- Witness for `run_refractory_blanking`: a concrete spike at step 0 of a
3-sample stimulus with refractory length 2 blanks two samples and resumes
the loop at step 2. -/
theorem run_refractory_blanking_witness :
    GLIFNeuron.runAux (constResetNeuron 2) [FV.fin 5, FV.fin 0, FV.fin 0] 0 3 0
        (FV.fin 0) (FV.fin 1) [] (initRunResult 3 0) =
      GLIFNeuron.runAux (constResetNeuron 2) [FV.fin 5, FV.fin 0, FV.fin 0] 0 2 2
        (FV.fin 0) (FV.fin 1) []
        (GLIFNeuron.blankOutputs
          (GLIFNeuron.recordSpike (constResetNeuron 2) (initRunResult 3 0) 0
            (FV.fin 0) (FV.fin 1) (FV.fin 5) (FV.fin 1)) 0 2 0) :=
  ((run_refractory_blanking (constResetNeuron 2) [FV.fin 5, FV.fin 0, FV.fin 0] 0 2 0
      (FV.fin 0) (FV.fin 1) (FV.fin 5) (FV.fin 1) (FV.fin 0) (FV.fin 1) [] [] []
      (initRunResult 3 0) (by decide) (by with_unfolding_all rfl) (by with_unfolding_all rfl)
      (by with_unfolding_all rfl) (by with_unfolding_all rfl) (by with_unfolding_all rfl)
      (by with_unfolding_all rfl)).1 (by decide)).1

/-- C1 counterexample: in the free-run loop's interpolation formula (source
line 215, the one whose `-1` was removed), a spike detected at step `t = 1`
with `dt = 1`, pre-step state `(voltage, threshold) = (0, 1)` (so
`voltage <= threshold`) and post-step state `(3, 2)` (so
`voltage > threshold`) yields the interpolated spike time `3/2`, which does
NOT lie strictly between the pre-crossing grid time `(t-1)*dt = 0` and the
crossing grid time `t*dt = 1`. -/
theorem interpolated_spike_time_run_counterexample :
    ((0 : ℚ) ≤ 1) ∧ ((2 : ℚ) < 3) ∧
    interpolatedSpikeTimeRun (FV.fin 1) 1 (FV.fin 0) (FV.fin 1) (FV.fin 3) (FV.fin 2) =
      FV.fin (3 / 2) ∧
    ¬ ((((1 : ℚ) - 1) * 1 < 3 / 2) ∧ ((3 / 2 : ℚ) < 1 * 1)) :=
  ⟨by norm_num, by norm_num, by with_unfolding_all rfl, by norm_num⟩

/-- C1 (amended): for a crossing with pre-step `voltage <= threshold`,
post-step `voltage > threshold` and `dt > 0`, both interpolation formulas
produce a finite time with the fraction `(th0-v0)/((v1-th1)+(th0-v0))` in
`[0,1)`: the free-run formula (source line 215, detection step `t`) yields a
time in `[t*dt, (t+1)*dt)` — at least the crossing step's grid time, not
inside `((t-1)*dt, t*dt)` — strictly above `t*dt` when the pre-step voltage
is strictly below threshold; the `run_until_spike` formula (source line 528,
crossing recorded at index `t`) yields a time in `[(t-1)*dt, t*dt)`, strictly
between the two grid times when the pre-crossing voltage is strictly below
its threshold. -/
theorem interpolated_spike_time_bounds (dt v0 th0 v1 th1 : ℚ) (t : ℕ)
    (hdt : 0 < dt) (hle : v0 ≤ th0) (hcross : th1 < v1) :
    (interpolatedSpikeTimeRun (FV.fin dt) t (FV.fin v0) (FV.fin th0) (FV.fin v1)
        (FV.fin th1) =
        FV.fin (dt * ((t : ℚ) + (th0 - v0) / (v1 - th1 - v0 + th0))) ∧
      (t : ℚ) * dt ≤ dt * ((t : ℚ) + (th0 - v0) / (v1 - th1 - v0 + th0)) ∧
      dt * ((t : ℚ) + (th0 - v0) / (v1 - th1 - v0 + th0)) < ((t : ℚ) + 1) * dt ∧
      (v0 < th0 → (t : ℚ) * dt < dt * ((t : ℚ) + (th0 - v0) / (v1 - th1 - v0 + th0)))) ∧
    (interpolatedSpikeTimeRUS (FV.fin dt) t (FV.fin v0) (FV.fin th0) (FV.fin v1)
        (FV.fin th1) =
        FV.fin (dt * (((t : ℚ) - 1) + (th0 - v0) / (v1 - th1 - v0 + th0))) ∧
      ((t : ℚ) - 1) * dt ≤ dt * (((t : ℚ) - 1) + (th0 - v0) / (v1 - th1 - v0 + th0)) ∧
      dt * (((t : ℚ) - 1) + (th0 - v0) / (v1 - th1 - v0 + th0)) < (t : ℚ) * dt ∧
      (v0 < th0 →
        ((t : ℚ) - 1) * dt < dt * (((t : ℚ) - 1) + (th0 - v0) / (v1 - th1 - v0 + th0)))) := by
  have hd : (0 : ℚ) < v1 - th1 - v0 + th0 := by linarith
  have hf0 : 0 ≤ (th0 - v0) / (v1 - th1 - v0 + th0) := div_nonneg (by linarith) hd.le
  have hf1 : (th0 - v0) / (v1 - th1 - v0 + th0) < 1 := (div_lt_one hd).mpr (by linarith)
  have hfpos : v0 < th0 → 0 < (th0 - v0) / (v1 - th1 - v0 + th0) :=
    fun h => div_pos (by linarith) hd
  refine ⟨⟨?_, ?_, ?_, ?_⟩, ⟨?_, ?_, ?_, ?_⟩⟩
  · unfold interpolatedSpikeTimeRun
    simp only [FV.sub_fin_fin, FV.add_fin_fin]
    rw [FV.div_fin_fin _ _ hd.ne']
    simp only [FV.add_fin_fin, FV.mul_fin_fin]
  · nlinarith [mul_nonneg hdt.le hf0]
  · nlinarith [mul_lt_mul_of_pos_left hf1 hdt]
  · intro h; nlinarith [mul_pos hdt (hfpos h)]
  · unfold interpolatedSpikeTimeRUS
    simp only [FV.sub_fin_fin, FV.add_fin_fin]
    rw [FV.div_fin_fin _ _ hd.ne']
    simp only [FV.add_fin_fin, FV.mul_fin_fin]
  · nlinarith [mul_nonneg hdt.le hf0]
  · nlinarith [mul_lt_mul_of_pos_left hf1 hdt]
  · intro h; nlinarith [mul_pos hdt (hfpos h)]

/-- Witness for `interpolated_spike_time_bounds`: at `dt = 1`, crossing
recorded index `t = 1`, pre-crossing state `(0, 1)`, crossing state `(3, 2)`,
the `run_until_spike` interpolated time is strictly below the crossing grid
time. -/
theorem interpolated_spike_time_bounds_witness :
    (1 : ℚ) * ((((1 : ℕ) : ℚ) - 1) + ((1 : ℚ) - 0) / (3 - 2 - 0 + 1)) < ((1 : ℕ) : ℚ) * 1 :=
  (interpolated_spike_time_bounds 1 0 1 3 2 1 (by norm_num) (by norm_num)
    (by norm_num)).2.2.2.1

/-- C4: For every invocation of the reset engine, any returned post-reset
state satisfies `voltage < threshold`; and whenever the three reset methods
produce a state with `voltage >= threshold` (the comparison fails), the
reset returns no state but the invalid-state error carrying the triggering
step index and both the post-reset voltage and threshold values. -/
theorem reset_invariant (n : GLIFNeuron) (voltage_t0 threshold_t0 : FV)
    (AScurrents_t0 : List FV) (t : ℕ) :
    (∀ voltage_t1 threshold_t1 AScurrents_t1,
      n.reset voltage_t0 threshold_t0 AScurrents_t0 t =
          .ok (voltage_t1, threshold_t1, AScurrents_t1) →
        FV.lt voltage_t1 threshold_t1 = true) ∧
    (FV.lt (n.voltage_reset_method n.cfg voltage_t0)
        (n.threshold_reset_method n.cfg threshold_t0
          (n.voltage_reset_method n.cfg voltage_t0)) = false →
      n.reset voltage_t0 threshold_t0 AScurrents_t0 t =
        .error (.resetAboveThreshold t (n.voltage_reset_method n.cfg voltage_t0)
          (n.threshold_reset_method n.cfg threshold_t0
            (n.voltage_reset_method n.cfg voltage_t0)))) := by
  constructor
  · intro v1 th1 asc1 h
    unfold GLIFNeuron.reset at h
    simp only [] at h
    split at h
    case isTrue hlt => cases h; exact hlt
    case isFalse hlt => exact absurd h (by simp)
  · intro hge
    unfold GLIFNeuron.reset
    simp only []
    rw [if_neg (by simp [hge])]

/-- Witness for `reset_invariant`: the always-violating reset rules produce
the invalid-state error with the step index and both values. -/
theorem reset_invariant_witness :
    badResetNeuron.reset (FV.fin 0) (FV.fin 0) [] 7 =
      .error (.resetAboveThreshold 7 (FV.fin 5) (FV.fin 3)) :=
  (reset_invariant badResetNeuron (FV.fin 0) (FV.fin 0) [] 7).2 (by decide)

/-- Every failure of method resolution is one of the four configuration
errors; in particular it is never the tau-length mismatch. -/
theorem configureLibraryMethod_error_ne {μ π : Type}
    (options : Option (String → Option μ)) (params : MethodConfig π) (e : Err)
    (h : configureLibraryMethod options params = .error e) : e ≠ .tauLengthMismatch := by
  unfold configureLibraryMethod at h
  split at h
  · cases h; simp
  · split at h
    · cases h; simp
    · split at h
      · cases h; simp
      · split at h
        · cases h; simp
        · cases h

/-- C8: For every construction of a neuron, if the membrane-time-constant
vector `tau` and the after-spike-current amplitude vector `asc_vector` have
different lengths, construction fails with the length-mismatch configuration
error and no neuron is produced; if the lengths are equal, this check
passes — any remaining construction failure is a method-resolution error,
never the length mismatch. -/
theorem init_tau_asc_length_check {π1 π2 π3 π4 π5 π6 : Type}
    (El dt : FV) (tau : List FV) (R_input C : FV) (asc_vector : List FV)
    (spike_cut_length : ℕ) (th_inf : FV) (coeffs : CoeffOverrides)
    (ascDynLib : Option (String → Option AScurrentDynT)) (ascDynCfg : MethodConfig π1)
    (vDynLib : Option (String → Option VoltageDynT)) (vDynCfg : MethodConfig π2)
    (thDynLib : Option (String → Option ThresholdDynT)) (thDynCfg : MethodConfig π3)
    (ascResetLib : Option (String → Option AScurrentResetT)) (ascResetCfg : MethodConfig π4)
    (vResetLib : Option (String → Option VoltageResetT)) (vResetCfg : MethodConfig π5)
    (thResetLib : Option (String → Option ThresholdResetT)) (thResetCfg : MethodConfig π6) :
    (tau.length ≠ asc_vector.length →
      glifNeuronInit El dt tau R_input C asc_vector spike_cut_length th_inf coeffs
        ascDynLib ascDynCfg vDynLib vDynCfg thDynLib thDynCfg
        ascResetLib ascResetCfg vResetLib vResetCfg thResetLib thResetCfg =
          .error .tauLengthMismatch) ∧
    (tau.length = asc_vector.length →
      ∀ e, glifNeuronInit El dt tau R_input C asc_vector spike_cut_length th_inf coeffs
        ascDynLib ascDynCfg vDynLib vDynCfg thDynLib thDynCfg
        ascResetLib ascResetCfg vResetLib vResetCfg thResetLib thResetCfg =
          .error e → e ≠ .tauLengthMismatch) := by
  constructor
  · intro hne
    unfold glifNeuronInit
    rw [if_pos hne]
  · intro heq e h
    unfold glifNeuronInit at h
    rw [if_neg (by omega)] at h
    simp only at h
    cases h1 : configureLibraryMethod ascDynLib ascDynCfg with
    | error e1 => rw [h1] at h; cases h; exact configureLibraryMethod_error_ne _ _ _ h1
    | ok m1 =>
      rw [h1] at h
      cases h2 : configureLibraryMethod vDynLib vDynCfg with
      | error e2 => rw [h2] at h; cases h; exact configureLibraryMethod_error_ne _ _ _ h2
      | ok m2 =>
        rw [h2] at h
        cases h3 : configureLibraryMethod thDynLib thDynCfg with
        | error e3 => rw [h3] at h; cases h; exact configureLibraryMethod_error_ne _ _ _ h3
        | ok m3 =>
          rw [h3] at h
          cases h4 : configureLibraryMethod ascResetLib ascResetCfg with
          | error e4 => rw [h4] at h; cases h; exact configureLibraryMethod_error_ne _ _ _ h4
          | ok m4 =>
            rw [h4] at h
            cases h5 : configureLibraryMethod vResetLib vResetCfg with
            | error e5 => rw [h5] at h; cases h; exact configureLibraryMethod_error_ne _ _ _ h5
            | ok m5 =>
              rw [h5] at h
              cases h6 : configureLibraryMethod thResetLib thResetCfg with
              | error e6 =>
                rw [h6] at h; cases h; exact configureLibraryMethod_error_ne _ _ _ h6
              | ok m6 => rw [h6] at h; cases h

/-- Witness for `init_tau_asc_length_check`: constructing with `tau` of
length 1 and an empty `asc_vector` fails with the length-mismatch error. -/
theorem init_tau_asc_length_check_witness :
    glifNeuronInit (FV.fin 0) (FV.fin 1) [FV.fin 1] (FV.fin 1) (FV.fin 1) [] 0 (FV.fin 1)
      {} (none : Option (String → Option AScurrentDynT)) ⟨none, (none : Option Unit)⟩
      none ⟨none, (none : Option Unit)⟩ none ⟨none, (none : Option Unit)⟩
      none ⟨none, (none : Option Unit)⟩ none ⟨none, (none : Option Unit)⟩
      none ⟨none, (none : Option Unit)⟩ = .error .tauLengthMismatch :=
  (init_tau_asc_length_check (FV.fin 0) (FV.fin 1) [FV.fin 1] (FV.fin 1) (FV.fin 1) [] 0
    (FV.fin 1) {} none ⟨none, none⟩ none ⟨none, none⟩ none ⟨none, none⟩ none ⟨none, none⟩
    none ⟨none, none⟩ none ⟨none, none⟩).1 (by decide)

/-- Inversion of the final consistency gate: a returned output has no nan
anywhere in the three traces and all per-spike arrays of length
`num_spikes`. -/
theorem finalChecks_ok (num_spikes : ℕ) (pre : RWTPre) (out : RWTResult)
    (h : finalChecks num_spikes pre = .ok out) :
    out.voltage.any FV.isNan = false ∧
    out.threshold.any FV.isNan = false ∧
    out.AScurrent_matrix.any (fun row => row.any FV.isNan) = false ∧
    out.gridTimeArray.length = num_spikes ∧
    out.interpolatedTimeArray.length = num_spikes ∧
    out.gridISIFromLastTargSpike.length = num_spikes ∧
    out.interpolatedISIFromLastTargSpike.length = num_spikes ∧
    out.voltageOfModelAtGridBioSpike.length = num_spikes ∧
    out.threshOfModelAtGridBioSpike.length = num_spikes ∧
    out.v_ofModelAtInterpolatedBioSpike.length = num_spikes ∧
    out.thresh_ofModelAtInterpolatedBioSpike.length = num_spikes := by
  unfold finalChecks at h
  split at h
  case isTrue => exact absurd h (by simp)
  case isFalse hv =>
    split at h
    case isTrue => exact absurd h (by simp)
    case isFalse hth =>
      split at h
      case isTrue => exact absurd h (by simp)
      case isFalse hm =>
        split at h
        case isTrue => exact absurd h (by simp)
        case isFalse hlen =>
          simp only [Except.ok.injEq] at h
          subst h
          push_neg at hlen
          simp only [Bool.not_eq_true] at hv hth hm
          exact ⟨hv, hth, hm, hlen.2.2.1, hlen.1, hlen.2.2.2.1, hlen.2.2.2.2.1,
            hlen.2.2.2.2.2.1, hlen.2.2.2.2.2.2.1, hlen.2.2.2.2.2.2.2.1,
            hlen.2.2.2.2.2.2.2.2⟩

/-- C6: After the target-aligned run completes, the final consistency gate
ensures that a returned output has no nan sentinel anywhere in the voltage,
threshold and after-spike-current traces and that every per-spike output
sequence has length equal to the number of supplied target spike indices
(first conjunct); a remaining nan sentinel fails with the corresponding
incomplete-trace error (next three conjuncts, one per trace in check order);
and a per-spike length mismatch fails with the spike-count mismatch error
(last conjunct).  Only a run passing both checks returns its outputs. -/
theorem run_wrt_postcondition_checks :
    (∀ (n : GLIFNeuron) (v0 th0 : FV) (asc0 : List FV) (stim : List FV)
      (ids : List ℕ) (tse : Bool) (itimes : List FV) (out : RWTResult),
      GLIFNeuron.runWrtTargetSpikeTrain n v0 th0 asc0 stim ids tse itimes = .ok out →
        out.voltage.any FV.isNan = false ∧
        out.threshold.any FV.isNan = false ∧
        out.AScurrent_matrix.any (fun row => row.any FV.isNan) = false ∧
        out.gridTimeArray.length = ids.length ∧
        out.interpolatedTimeArray.length = ids.length ∧
        out.gridISIFromLastTargSpike.length = ids.length ∧
        out.interpolatedISIFromLastTargSpike.length = ids.length ∧
        out.voltageOfModelAtGridBioSpike.length = ids.length ∧
        out.threshOfModelAtGridBioSpike.length = ids.length ∧
        out.v_ofModelAtInterpolatedBioSpike.length = ids.length ∧
        out.thresh_ofModelAtInterpolatedBioSpike.length = ids.length) ∧
    (∀ (num_spikes : ℕ) (pre : RWTPre), pre.voltage.any FV.isNan = true →
      finalChecks num_spikes pre = .error (.incompleteTrace 0)) ∧
    (∀ (num_spikes : ℕ) (pre : RWTPre), pre.voltage.any FV.isNan = false →
      pre.threshold.any FV.isNan = true →
      finalChecks num_spikes pre = .error (.incompleteTrace 1)) ∧
    (∀ (num_spikes : ℕ) (pre : RWTPre), pre.voltage.any FV.isNan = false →
      pre.threshold.any FV.isNan = false →
      pre.AScurrent_matrix.any (fun row => row.any FV.isNan) = true →
      finalChecks num_spikes pre = .error (.incompleteTrace 2)) ∧
    (∀ (num_spikes : ℕ) (pre : RWTPre), pre.voltage.any FV.isNan = false →
      pre.threshold.any FV.isNan = false →
      pre.AScurrent_matrix.any (fun row => row.any FV.isNan) = false →
      (pre.interpolatedTimeArray.length ≠ num_spikes ∨
        pre.interpolatedVoltageArray.length ≠ num_spikes ∨
        pre.gridTimeArray.length ≠ num_spikes ∨
        pre.gridISIFromLastTargSpike.length ≠ num_spikes ∨
        pre.interpolatedISIFromLastTargSpike.length ≠ num_spikes ∨
        pre.voltageOfModelAtGridBioSpike.length ≠ num_spikes ∨
        pre.threshOfModelAtGridBioSpike.length ≠ num_spikes ∨
        pre.v_ofModelAtInterpolatedBioSpike.length ≠ num_spikes ∨
        pre.thresh_ofModelAtInterpolatedBioSpike.length ≠ num_spikes) →
      finalChecks num_spikes pre = .error .spikeCountMismatch) := by
  refine ⟨?_, ?_, ?_, ?_, ?_⟩
  · intro n v0 th0 asc0 stim ids tse itimes out h
    unfold GLIFNeuron.runWrtTargetSpikeTrain at h
    simp only [] at h
    split at h
    case isTrue h0 =>
      split at h
      case isTrue => exact absurd h (by simp)
      case isFalse =>
        split at h
        case h_1 e he => exact absurd h (by simp)
        case h_2 r hr => exact finalChecks_ok _ _ _ h
    case isFalse h0 =>
      split at h
      case isTrue => exact absurd h (by simp)
      case isFalse =>
        split at h
        case h_1 e he => exact absurd h (by simp)
        case h_2 st hst =>
          split at h
          case h_1 e he => exact absurd h (by simp)
          case h_2 r hr => exact finalChecks_ok _ _ _ h
  · intro num_spikes pre hv
    unfold finalChecks
    rw [if_pos hv]
  · intro num_spikes pre hv hth
    unfold finalChecks
    rw [if_neg (by simp [hv]), if_pos hth]
  · intro num_spikes pre hv hth hm
    unfold finalChecks
    rw [if_neg (by simp [hv]), if_neg (by simp [hth]), if_pos hm]
  · intro num_spikes pre hv hth hm hlen
    unfold finalChecks
    rw [if_neg (by simp [hv]), if_neg (by simp [hth]), if_neg (by simp [hm]), if_pos hlen]

/-- Witness for `run_wrt_postcondition_checks`: a pre-check record with a nan
left in its voltage trace fails the gate with the incomplete-trace error. -/
theorem run_wrt_postcondition_checks_witness :
    finalChecks 0 ⟨[FV.nan], [], [], [], [], [], [], [], [], [], [], []⟩ =
      .error (.incompleteTrace 0) :=
  run_wrt_postcondition_checks.2.1 0 ⟨[FV.nan], [], [], [], [], [], [], [], [], [], [], []⟩
    (by decide)

/-- If any state visited by the recording loop of `run_until_spike` within
its step budget is non-finite, the loop fails with the fixed invalid-state
error. -/
theorem rusLoop_error_of_bad (n : GLIFNeuron) (stim : List FV) (start_index : ℕ)
    (spike_time_steps : List ℕ) (init : FV × FV × List FV) :
    ∀ (rem k : ℕ) (st : RUSLoopState),
      (st.voltage_t0, st.threshold_t0, st.AScurrents_t0) =
        GLIFNeuron.rusStepStates n stim start_index spike_time_steps init k →
      (∃ j, j < rem ∧ stateIsBad
        (GLIFNeuron.rusStepStates n stim start_index spike_time_steps init (k + j)) = true) →
      GLIFNeuron.rusLoop n stim start_index spike_time_steps rem k st =
        .error .invalidValue := by
  intro rem
  induction rem with
  | zero =>
    intro k st hst hex
    obtain ⟨j, hj, _⟩ := hex
    omega
  | succ rem ih =>
    intro k st hst hex
    obtain ⟨j, hj, hbad⟩ := hex
    rw [GLIFNeuron.rusLoop]
    by_cases hb : stateIsBad (st.voltage_t0, st.threshold_t0, st.AScurrents_t0) = true
    · rw [if_pos hb]
    · rw [if_neg hb]
      have hj0 : j ≠ 0 := by
        intro h0
        subst h0
        rw [Nat.add_zero] at hbad
        rw [← hst] at hbad
        exact hb hbad
      have hstep : GLIFNeuron.rusStepStates n stim start_index spike_time_steps init (k + 1) =
          n.dynamics st.voltage_t0 st.threshold_t0 st.AScurrents_t0
            (stim.getD (k + start_index) FV.nan) (k + start_index) spike_time_steps := by
        simp only [GLIFNeuron.rusStepStates]
        rw [← hst]
      refine ih (k + 1) _ ?_ ⟨j - 1, by omega, ?_⟩
      · rw [hstep]
      · have harith : (k + 1) + (j - 1) = k + j := by omega
        rw [harith]
        exact hbad

/-- C7 (amended): in `run_until_spike`, if the state at entry of any recorded
step within the segment is not-a-number or infinite, the run fails with an
invalid-state error carrying the source's fixed message (the offending step
index and the trailing window of prior values are written to the error log,
not carried by the raised error), and no output is returned. -/
theorem run_until_spike_bad_state_fails (n : GLIFNeuron) (voltage_t0 threshold_t0 : FV)
    (AScurrents_t0 : List FV) (stim : List FV) (start_index end_index : ℕ)
    (spike_time_steps : List ℕ) (target_spike_exists : Bool) (delta : FV)
    (hbad : ∃ k, k < end_index - start_index ∧
      stateIsBad (GLIFNeuron.rusStepStates n stim start_index spike_time_steps
        (voltage_t0, threshold_t0, AScurrents_t0) k) = true) :
    GLIFNeuron.runUntilSpike n voltage_t0 threshold_t0 AScurrents_t0 stim start_index
      end_index spike_time_steps target_spike_exists delta = .error .invalidValue := by
  unfold GLIFNeuron.runUntilSpike
  simp only []
  have hloop := rusLoop_error_of_bad n stim start_index spike_time_steps
    (voltage_t0, threshold_t0, AScurrents_t0) (end_index - start_index) 0
    { voltage_t0 := voltage_t0, threshold_t0 := threshold_t0
      AScurrents_t0 := AScurrents_t0, last_t1 := none
      voltage_out := [], threshold_out := [], AScurrent_matrix := [] }
    rfl (by simpa using hbad)
  rw [hloop]

/-- C7 counterexample: two segment runs whose first non-finite state occurs
at different step indices (0 and 1) fail with the *identical* error value, so
the raised invalid-state error cannot include the offending step index (nor a
window of preceding trace values): it is the fixed message only. -/
theorem run_until_spike_invalid_error_no_index :
    GLIFNeuron.runUntilSpike decResetNeuron FV.nan (FV.fin 1) [] [FV.fin 0, FV.fin 0]
        0 2 [] false (FV.fin 1) = .error .invalidValue ∧
    GLIFNeuron.runUntilSpike decResetNeuron (FV.fin 0) (FV.fin 1) [] [FV.nan, FV.fin 0]
        0 2 [] false (FV.fin 1) = .error .invalidValue ∧
    stateIsBad (GLIFNeuron.rusStepStates decResetNeuron [FV.fin 0, FV.fin 0] 0 []
      (FV.nan, FV.fin 1, []) 0) = true ∧
    stateIsBad (GLIFNeuron.rusStepStates decResetNeuron [FV.nan, FV.fin 0] 0 []
      (FV.fin 0, FV.fin 1, []) 0) = false ∧
    stateIsBad (GLIFNeuron.rusStepStates decResetNeuron [FV.nan, FV.fin 0] 0 []
      (FV.fin 0, FV.fin 1, []) 1) = true :=
  ⟨by with_unfolding_all rfl, by with_unfolding_all rfl, by with_unfolding_all rfl,
    by with_unfolding_all rfl, by with_unfolding_all rfl⟩

/-- Witness for `run_until_spike_bad_state_fails`: an infinite initial
voltage fails the one-step segment immediately. -/
theorem run_until_spike_bad_state_fails_witness :
    GLIFNeuron.runUntilSpike (constResetNeuron 0) FV.pinf (FV.fin 1) [] [FV.fin 0]
      0 1 [] false (FV.fin 1) = .error .invalidValue :=
  run_until_spike_bad_state_fails (constResetNeuron 0) FV.pinf (FV.fin 1) [] [FV.fin 0]
    0 1 [] false (FV.fin 1) ⟨0, by omega, by decide⟩

/-- C2 (evidence of the code bug): in the target-aligned loop with target
spike index 1 on a 3-sample stimulus, the trailing segment (from index 1 to
the end) is invoked with `target_spike_exists` — necessarily true on this
branch — so a reset is forced at its end; here the forced reset lands the
voltage (8) above the threshold (1) and the whole run fails with the
reset-invariant error, which could not happen if the trailing segment ran
with `target_spike_exists = false` as the specification states. -/
theorem run_wrt_trailing_forced_reset :
    GLIFNeuron.runWrtTargetSpikeTrain decResetNeuron (FV.fin 0) (FV.fin 1) []
      [FV.fin 0, FV.fin 0, FV.fin 10] [1] true [FV.fin (1 / 2)] =
      .error (.resetAboveThreshold 1 (FV.fin 8) (FV.fin 1)) := by
  with_unfolding_all rfl

/-- C5 (evidence of the code bug): with an empty target spike sequence on a
3-sample stimulus, the target-aligned loop runs the single segment only to
`len(stim) - 1` and returns voltage, threshold and after-spike-current traces
of length 2, not the stimulus length 3 (the source itself warns about
exactly this mismatch at lines 318-323). -/
theorem run_wrt_empty_target_trace_length :
    (GLIFNeuron.runWrtTargetSpikeTrain decResetNeuron (FV.fin 0) (FV.fin 1) []
        [FV.fin 5, FV.fin 0, FV.fin 0] [] false []).map
      (fun out => (out.voltage.length, out.threshold.length, out.AScurrent_matrix.length)) =
      .ok (2, 2, 2) ∧
    ([FV.fin 5, FV.fin 0, FV.fin 0] : List FV).length = 3 :=
  ⟨by with_unfolding_all rfl, rfl⟩
